import Mathlib

/-!
Shallow embedding of the swarm-agent node from agent.py: the election FSM,
the task engine, the potential-field motion controller, and the byte-level
message codec. Python floats are modelled as real numbers; wall-clock reads
(time.time()) inside one handler are modelled as a single `now` parameter;
the random jitter sample (random.uniform) is an explicit parameter.
Outbound traffic is the ordered list of frames handed to send_msg.
-/

namespace Swarm

/-- MsgType codes from agent.py (IntEnum). -/
def HEARTBEAT_CODE : Nat := 1
def ELECTION_ACCLAIM_CODE : Nat := 2
def COORDINATOR_CODE : Nat := 3
def TASK_CLAIM_CODE : Nat := 4
def TASK_CONFLICT_CODE : Nat := 5

/-- AgentState from agent.py. -/
inductive AgentState where
  | FOLLOWER
  | ELECTION_WAIT
  | LEADER
deriving DecidableEq, Repr

/-- Local task status strings from agent.py. -/
inductive TaskStatus where
  | OPEN
  | TENTATIVE
  | ASSIGNED
  | LOCKED
deriving DecidableEq, Repr

/-- A task record: position, optional required capability, local status. -/
structure Task where
  status : TaskStatus
  pos : ℝ × ℝ
  required_cap : Option String

/-- A leader claim-table entry: winner id and winning utility. -/
structure ClaimEntry where
  winner : Nat
  utility : ℝ

/-- Outbound frames, at the granularity of the send_msg calls in agent.py.
The wire codec packs these big-endian: heartbeat payload is two f32, the
acclaim payload one u8, coordinator is empty, task claim is u32 then f32,
task conflict is u32 then u8, all after the 6-byte header. -/
inductive Msg where
  | heartbeat (x y : ℝ)
  | electionAcclaim (claimant : Nat)
  | coordinator
  | taskClaim (task_id : Nat) (utility : ℝ)
  | taskConflict (task_id : Nat) (winner : Nat)

/-- The mutable fields of SwarmAgent in agent.py. Python dicts (tasks,
task_claims) are modelled as association lists keyed by id; the sensor
dict is split into its two lists. -/
structure SwarmAgent where
  agent_id : Nat
  total_agents : Nat
  state : AgentState
  leader_id : Option Nat
  leader_pos : Option (ℝ × ℝ)
  last_heartbeat_time : ℝ
  tick : Nat
  election_wait_start : ℝ
  election_delay : ℝ
  tasks : List (Nat × Task)
  task_claims : List (Nat × ClaimEntry)
  position : ℝ × ℝ
  velocity : ℝ × ℝ
  max_speed : ℝ
  obstacles : List (ℝ × ℝ × ℝ)
  neighbors : List (Nat × ℝ × ℝ)
  target : Option (ℝ × ℝ)
  capabilities : List String

/-- SwarmAgent.__init__: the state built at node start, with `now` the
wall-clock reading taken for last_heartbeat_time. -/
def SwarmAgent.init (now : ℝ) (agent_id total_agents : Nat)
    (capabilities : List String) : SwarmAgent where
  agent_id := agent_id
  total_agents := total_agents
  state := .FOLLOWER
  leader_id := none
  leader_pos := none
  last_heartbeat_time := now
  tick := 0
  election_wait_start := 0
  election_delay := 0
  tasks := []
  task_claims := []
  position := (0, 0)
  velocity := (0, 0)
  max_speed := 5
  obstacles := []
  neighbors := []
  target := none
  capabilities := capabilities

/-- Python dict assignment d[k] = v on an association list: replaces the
binding of k if present, otherwise appends it. -/
def dictInsert {α : Type} : Nat → α → List (Nat × α) → List (Nat × α)
  | k, v, [] => [(k, v)]
  | k, v, (k', v') :: rest =>
      if k = k' then (k, v) :: rest else (k', v') :: dictInsert k v rest

noncomputable section

/-- _send_heartbeat: packs (position.x, position.y) as the payload and
sends it only on every 10th tick (1 Hz subsampling). -/
def send_heartbeat (s : SwarmAgent) : List Msg :=
  if s.tick % 10 = 0 then [Msg.heartbeat s.position.1 s.position.2] else []

/-- _check_election_timeout from agent.py. `now` stands for the
time.time() reads in this call and `delaySample` for the value that
random.uniform(0.0, 0.2) returns if the jitter is sampled. Returns the
new state and the frames sent, in order. -/
def check_election_timeout (now delaySample : ℝ) (s : SwarmAgent) :
    SwarmAgent × List Msg :=
  if s.state = .LEADER then (s, [])
  else
    let s1 :=
      if s.state = .FOLLOWER ∧ now - s.last_heartbeat_time > 3.0 then
        { s with state := .ELECTION_WAIT
                 election_wait_start := now
                 election_delay := delaySample
                 leader_id := none
                 leader_pos := none }
      else s
    if s1.state = .ELECTION_WAIT ∧
        now - s1.election_wait_start > s1.election_delay then
      ({ s1 with state := .LEADER, leader_id := some s1.agent_id },
       [Msg.electionAcclaim s1.agent_id, Msg.coordinator])
    else (s1, [])

/-- _handle_heartbeat from agent.py: suppression branch for a leader
seeing a lower sender, yield branch for a leader seeing a higher sender,
then liveness bookkeeping; the leader position is decoded only when the
payload is exactly 8 bytes. `decode8` is the value struct.unpack would
give on an 8-byte payload (supplied by the byte-level dispatcher). -/
def handle_heartbeat (now : ℝ) (sender : Nat) (payloadLen : Nat)
    (decode8 : ℝ × ℝ) (s : SwarmAgent) : SwarmAgent × List Msg :=
  if s.state = .LEADER ∧ sender < s.agent_id then
    (s, send_heartbeat s)
  else
    let s1 :=
      if s.state = .LEADER ∧ sender > s.agent_id then
        { s with state := .FOLLOWER }
      else s
    let s2 := { s1 with leader_id := some sender, last_heartbeat_time := now }
    let s3 :=
      if payloadLen = 8 then { s2 with leader_pos := some decode8 } else s2
    if s3.state = .ELECTION_WAIT then ({ s3 with state := .FOLLOWER }, [])
    else (s3, [])

/-- _handle_election_acclaim from agent.py. -/
def handle_election_acclaim (now : ℝ) (sender : Nat) (s : SwarmAgent) :
    SwarmAgent × List Msg :=
  if sender > s.agent_id then
    ({ s with state := .FOLLOWER, leader_id := some sender,
              last_heartbeat_time := now }, [])
  else if sender < s.agent_id ∧ (s.state = .LEADER ∨ s.state = .ELECTION_WAIT) then
    let s1 :=
      if s.state = .ELECTION_WAIT then
        { s with state := .LEADER, leader_id := some s.agent_id }
      else s
    (s1, send_heartbeat s1)
  else (s, [])

/-- _handle_coordinator from agent.py. -/
def handle_coordinator (now : ℝ) (sender : Nat) (s : SwarmAgent) :
    SwarmAgent × List Msg :=
  ({ s with leader_id := some sender, state := .FOLLOWER,
            last_heartbeat_time := now }, [])

/-- _calculate_utility from agent.py:
U = 100 / (1 + dist) * has_cap, has_cap dropping to 0 exactly when the
task carries a required_cap that is not among the node capabilities. -/
def calculate_utility (s : SwarmAgent) (task : Task) : ℝ :=
  let dist := Real.sqrt ((s.position.1 - task.pos.1) ^ 2 +
                         (s.position.2 - task.pos.2) ^ 2)
  let has_cap : ℝ :=
    match task.required_cap with
    | some c => if c ∈ s.capabilities then 1.0 else 0.0
    | none => 1.0
  (100.0 / (1.0 + dist)) * has_cap

/-- One entry of the greedy claim loop in _process_tasks: the updated task
record. -/
def claim_step_task (s : SwarmAgent) (e : Nat × Task) : Nat × Task :=
  if e.2.status = .OPEN ∧ calculate_utility s e.2 > 20.0 then
    (e.1, { e.2 with status := .TENTATIVE })
  else e

/-- One entry of the greedy claim loop in _process_tasks: the frames sent
for that task. -/
def claim_step_msgs (s : SwarmAgent) (e : Nat × Task) : List Msg :=
  if e.2.status = .OPEN ∧ calculate_utility s e.2 > 20.0 then
    [Msg.taskClaim e.1 (calculate_utility s e.2)]
  else []

/-- _process_tasks from agent.py: the greedy claim scan over the task map.
Utility depends only on position and capabilities, so the in-place status
mutations of the Python loop commute with later iterations and the scan is
a map over the entries. -/
def process_tasks (s : SwarmAgent) : SwarmAgent × List Msg :=
  ({ s with tasks := s.tasks.map (claim_step_task s) },
   (s.tasks.map (claim_step_msgs s)).flatten)

/-- _handle_task_claim from agent.py, after the struct.unpack of the
payload into (task_id, utility): leader-only arbitration with the +5.0
hysteresis. -/
def handle_task_claim (sender task_id : Nat) (utility : ℝ)
    (s : SwarmAgent) : SwarmAgent × List Msg :=
  if s.state = .LEADER then
    match s.task_claims.lookup task_id with
    | none =>
        ({ s with task_claims :=
             dictInsert task_id ⟨sender, utility⟩ s.task_claims },
         [Msg.taskConflict task_id sender])
    | some current =>
        if utility > current.utility + 5.0 then
          ({ s with task_claims :=
               dictInsert task_id ⟨sender, utility⟩ s.task_claims },
           [Msg.taskConflict task_id sender])
        else if current.winner ≠ sender then
          (s, [Msg.taskConflict task_id current.winner])
        else (s, [])
  else (s, [])

/-- _handle_task_conflict from agent.py, after the struct.unpack of the
payload into (task_id, winner_id). -/
def handle_task_conflict (task_id winner_id : Nat) (s : SwarmAgent) :
    SwarmAgent × List Msg :=
  let setStatus := fun (st : TaskStatus) =>
    s.tasks.map (fun e => if e.1 = task_id then (e.1, { e.2 with status := st }) else e)
  if winner_id = s.agent_id then
    if (s.tasks.lookup task_id).isSome then
      ({ s with tasks := setStatus .ASSIGNED }, [])
    else (s, [])
  else
    if (s.tasks.lookup task_id).isSome then
      ({ s with tasks := setStatus .LOCKED }, [])
    else (s, [])

end

/-- Big-endian unsigned decode of a byte list, as struct.unpack does for
the u32 fields. -/
def beNat : List Nat → Nat
  | [] => 0
  | b :: rest => b * 256 ^ rest.length + beNat rest

noncomputable section

/-- IEEE 754 binary32 decode of 4 big-endian bytes into a real number,
as struct.unpack with format f produces. The exponent-255 patterns encode
infinities and NaNs, which have no counterpart in ℝ; no claim observes a
decoded float, so they are mapped to 0 here. -/
def beF32 (bytes : List Nat) : ℝ :=
  let bits : Nat := beNat bytes
  let sign : ℝ := if bits / 2 ^ 31 % 2 = 1 then -1 else 1
  let e : Nat := bits / 2 ^ 23 % 256
  let m : Nat := bits % 2 ^ 23
  if e = 0 then sign * (m : ℝ) * (2 : ℝ) ^ (-(149 : ℤ))
  else if e = 255 then 0
  else sign * ((2 ^ 23 + m : ℕ) : ℝ) * (2 : ℝ) ^ ((e : ℤ) - 150)

/-- on_message_received from agent.py, at byte level. Frames shorter than
6 bytes are dropped; the header is (type u8, sender u8, tick u32); the
payload is the rest. Unknown type codes fall through silently. The
struct.unpack calls inside _handle_task_claim and _handle_task_conflict
demand exactly 8 resp. 5 payload bytes and raise struct.error otherwise,
modelled as Except.error. -/
def on_message_received (now : ℝ) (data : List Nat) (s : SwarmAgent) :
    Except Unit (SwarmAgent × List Msg) :=
  if data.length < 6 then .ok (s, [])
  else
    let msg_type := data.headI
    let sender := data.tail.headI
    let payload := data.drop 6
    if msg_type = HEARTBEAT_CODE then
      .ok (handle_heartbeat now sender payload.length
            (beF32 (payload.take 4), beF32 (payload.drop 4)) s)
    else if msg_type = ELECTION_ACCLAIM_CODE then
      .ok (handle_election_acclaim now sender s)
    else if msg_type = COORDINATOR_CODE then
      .ok (handle_coordinator now sender s)
    else if msg_type = TASK_CLAIM_CODE then
      if payload.length = 8 then
        .ok (handle_task_claim sender (beNat (payload.take 4))
              (beF32 (payload.drop 4)) s)
      else .error ()
    else if msg_type = TASK_CONFLICT_CODE then
      if payload.length = 5 then
        .ok (handle_task_conflict (beNat (payload.take 4))
              (payload.getD 4 0) s)
      else .error ()
    else .ok (s, [])

/-- Euclidean magnitude of a 2D vector, as the math.sqrt of the component
squares in agent.py. -/
def vmag (v : ℝ × ℝ) : ℝ := Real.sqrt (v.1 ^ 2 + v.2 ^ 2)

/-- The formation-target derivation at the top of _update_physics: a
follower that knows the leader position takes a V-shape slot keyed by its
own id; everyone else keeps the externally set target. -/
def formation_target (s : SwarmAgent) : Option (ℝ × ℝ) :=
  match s.state, s.leader_pos with
  | .FOLLOWER, some lp =>
      let rank := s.agent_id
      let x_offset : ℝ := -2.0 * rank
      let y_offset : ℝ := if rank % 2 = 0 then 2.0 * rank else -2.0 * rank
      some (lp.1 + x_offset, lp.2 + y_offset)
  | _, _ => s.target

/-- Attractive potential-field force toward the target, k_att = 1.0,
zeroed inside the 0.5 m arrival tolerance. -/
def attractive_force (position target : ℝ × ℝ) : ℝ × ℝ :=
  let dist_to_target := vmag (target.1 - position.1, target.2 - position.2)
  if dist_to_target > 0.5 then
    (1.0 * (target.1 - position.1), 1.0 * (target.2 - position.2))
  else (0, 0)

/-- Repulsive force of one obstacle (ox, oy, r): surface distance clamped
to at least 0.001, active inside the 5.0 m influence radius, with
magnitude k_rep * (1/d - 1/rho0) / d^2 along unit(position - center).
When the position coincides with the center the Python division by
norm = 0.0 raises ZeroDivisionError; in ℝ, x / 0 = 0 and the term
contributes nothing. -/
def obstacle_force (position : ℝ × ℝ) (obs : ℝ × ℝ × ℝ) : ℝ × ℝ :=
  let ox := obs.1
  let oy := obs.2.1
  let r := obs.2.2
  let dist0 := vmag (position.1 - ox, position.2 - oy) - r
  let dist := if dist0 ≤ 0.001 then 0.001 else dist0
  if dist < 5.0 then
    let mag := 50.0 * (1.0 / dist - 1.0 / 5.0) / dist ^ 2
    let dx := position.1 - ox
    let dy := position.2 - oy
    let norm := vmag (dx, dy)
    (dx / norm * mag, dy / norm * mag)
  else (0, 0)

/-- Separation force from one neighbor inside the 2.0 m personal space,
magnitude k_sep / d^2 with d clamped to at least 0.001, along
unit(position - neighbor); same zero-norm caveat as obstacle_force. -/
def neighbor_force (position : ℝ × ℝ) (n : Nat × ℝ × ℝ) : ℝ × ℝ :=
  let nx := n.2.1
  let ny := n.2.2
  let dist0 := vmag (position.1 - nx, position.2 - ny)
  if dist0 < 2.0 then
    let dist := if dist0 ≤ 0.001 then 0.001 else dist0
    let mag := 20.0 / dist ^ 2
    let dx := position.1 - nx
    let dy := position.2 - ny
    let norm := vmag (dx, dy)
    (dx / norm * mag, dy / norm * mag)
  else (0, 0)

/-- Componentwise sum of a list of 2D force vectors (the += loops). -/
def vsum (l : List (ℝ × ℝ)) : ℝ × ℝ :=
  l.foldl (fun a b => (a.1 + b.1, a.2 + b.2)) (0, 0)

/-- f_total of _update_physics: attraction plus the summed obstacle and
neighbor repulsions, at the given position and sensor snapshot. -/
def total_force (s : SwarmAgent) (target : ℝ × ℝ) : ℝ × ℝ :=
  let f_att := attractive_force s.position target
  let f_rep := vsum (s.obstacles.map (obstacle_force s.position))
  let f_sep := vsum (s.neighbors.map (neighbor_force s.position))
  (f_att.1 + f_rep.1 + f_sep.1, f_att.2 + f_rep.2 + f_sep.2)

/-- _update_physics from agent.py: formation-target derivation, early
return when no target is set, potential-field force sum, clamp of the
commanded velocity to max_speed, and first-order position integration. -/
def update_physics (dt : ℝ) (s : SwarmAgent) : SwarmAgent :=
  let s1 := { s with target := formation_target s }
  match s1.target with
  | none => s1
  | some tgt =>
      let f := total_force s1 tgt
      let v_mag := vmag f
      let vel :=
        if v_mag > s1.max_speed then
          (f.1 * (s1.max_speed / v_mag), f.2 * (s1.max_speed / v_mag))
        else f
      { s1 with velocity := vel
                position := (s1.position.1 + vel.1 * dt,
                             s1.position.2 + vel.2 * dt) }

/-- The spec invariant: role Leader implies leader_id is the own id. -/
def leader_inv (s : SwarmAgent) : Prop :=
  s.state = .LEADER → s.leader_id = some s.agent_id

/-- A freshly initialized follower node with id 1 (as in the test setup). -/
def s0 : SwarmAgent := SwarmAgent.init 0 1 3 []

/-- Node 1 sitting in ELECTION_WAIT since t=5 with a 0.1 s jitter delay. -/
def sEW : SwarmAgent :=
  { s0 with state := .ELECTION_WAIT, election_wait_start := 5,
            election_delay := 0.1 }

/-- Node 2 leading at tick 1 (a tick that is not a multiple of 10). -/
def sL2 : SwarmAgent :=
  { SwarmAgent.init 0 2 3 [] with state := .LEADER, leader_id := some 2,
                                  tick := 1 }

/-- Node 2 leading at tick 10 (a heartbeat-emission tick). -/
def sL2t10 : SwarmAgent :=
  { SwarmAgent.init 0 2 3 [] with state := .LEADER, leader_id := some 2,
                                  tick := 10 }

/-- Leader node 1 whose claim table already awards task 101 to node 2 at
utility 50. -/
def sLarb : SwarmAgent :=
  { s0 with state := .LEADER, leader_id := some 1,
            task_claims := [(101, ⟨2, 50⟩)] }

/-- The scenario-4 task: task 101 at (1, 0) requiring the extinguisher
capability, still OPEN. -/
def task101 : Task := ⟨.OPEN, (1, 0), some "extinguisher"⟩

/-- Node 1 at the origin holding the extinguisher capability, with task
101 in its local task map. -/
def sCap : SwarmAgent :=
  { SwarmAgent.init 0 1 3 ["extinguisher"] with tasks := [(101, task101)] }

/-- Node 1 at the origin with an externally set target at the origin and
empty sensor snapshots. -/
def sTgt : SwarmAgent := { s0 with target := some (0, 0) }

end

theorem lookup_dictInsert {α : Type} (k : Nat) (v : α) (l : List (Nat × α)) :
    (dictInsert k v l).lookup k = some v := by
  induction l with
  | nil => simp [dictInsert]
  | cons head tail ih =>
      obtain ⟨k1, v1⟩ := head
      simp only [dictInsert]
      by_cases h : k = k1
      · simp [h, List.lookup_cons]
      · rw [if_neg h]
        simpa [List.lookup_cons, beq_false_of_ne h] using ih

/-- C2: a node in ELECTION_WAIT becomes LEADER with leader_id its own id
and emits exactly [ELECTION_ACCLAIM(own id), COORDINATOR] in that order
precisely when now - election_wait_start exceeds the jitter delay, and is
left unchanged with no frames otherwise. -/
theorem election_wait_expiry (now delaySample : ℝ) (s : SwarmAgent)
    (h : s.state = .ELECTION_WAIT) :
    check_election_timeout now delaySample s =
      if now - s.election_wait_start > s.election_delay then
        ({ s with state := .LEADER, leader_id := some s.agent_id },
         [Msg.electionAcclaim s.agent_id, Msg.coordinator])
      else (s, []) := by
  simp [check_election_timeout, h]

/-- Witness for C2 at the scenario-1 inputs: node 1 waiting since t=5
with delay 0.1 acclaims at t=5.3. -/
theorem election_wait_expiry_witness :
    sEW.state = .ELECTION_WAIT ∧
    check_election_timeout 5.3 0 sEW =
      ({ sEW with state := .LEADER, leader_id := some sEW.agent_id },
       [Msg.electionAcclaim sEW.agent_id, Msg.coordinator]) := by
  refine ⟨rfl, ?_⟩
  rw [election_wait_expiry 5.3 0 sEW rfl]
  rw [if_pos]
  show (5.3 : ℝ) - 5 > 0.1
  norm_num

/-- C3: a FOLLOWER enters ELECTION_WAIT exactly when now minus the last
heartbeat strictly exceeds 3.0 s (not at exactly 3.0 s), recording
election_wait_start = now, storing the jitter sample as the delay, and
clearing leader_id and leader_pos; otherwise nothing changes and nothing
is sent. The hypotheses on delaySample are the range of
random.uniform(0.0, 0.2). -/
theorem follower_timeout (now delaySample : ℝ) (s : SwarmAgent)
    (h : s.state = .FOLLOWER) (hd0 : 0 ≤ delaySample)
    (_hd2 : delaySample ≤ 0.2) :
    check_election_timeout now delaySample s =
      if now - s.last_heartbeat_time > 3.0 then
        ({ s with state := .ELECTION_WAIT, election_wait_start := now,
                  election_delay := delaySample,
                  leader_id := none, leader_pos := none }, [])
      else (s, []) := by
  by_cases ht : now - s.last_heartbeat_time > 3.0
  · rw [if_pos ht]
    simp [check_election_timeout, h, ht]
    linarith
  · rw [if_neg ht]
    simp [check_election_timeout, h, ht]

/-- Witness for C3: node 1 whose last heartbeat is 3.5 s old enters
ELECTION_WAIT; the jitter sample 0.15 lies in [0, 0.2]. -/
theorem follower_timeout_witness :
    s0.state = .FOLLOWER ∧ (0 : ℝ) ≤ 0.15 ∧ (0.15 : ℝ) ≤ 0.2 ∧
    check_election_timeout 3.5 0.15 s0 =
      ({ s0 with state := .ELECTION_WAIT, election_wait_start := 3.5,
                 election_delay := 0.15,
                 leader_id := none, leader_pos := none }, []) := by
  refine ⟨rfl, by norm_num, by norm_num, ?_⟩
  rw [follower_timeout 3.5 0.15 s0 rfl (by norm_num) (by norm_num)]
  rw [if_pos]
  show (3.5 : ℝ) - s0.last_heartbeat_time > 3.0
  show (3.5 : ℝ) - 0 > 3.0
  norm_num

/-- C4: leader arbitration of an inbound TASK_CLAIM. A non-leader leaves
the claim table alone and sends nothing. A leader replaces the entry for
task_id by (sender, utility) and broadcasts TASK_CONFLICT(task_id,
sender) exactly when there is no incumbent entry or the utility strictly
beats the incumbent utility plus 5.0; when the claim does not beat the
hysteresis and the incumbent winner differs from the sender, the leader
rebroadcasts TASK_CONFLICT naming the incumbent; otherwise nothing
happens. The final conjunct records that the dict assignment indeed makes
the entry for task_id equal to the stored pair. -/
theorem task_claim_arbitration (sender task_id : Nat) (utility : ℝ)
    (s : SwarmAgent) :
    (s.state ≠ .LEADER →
      handle_task_claim sender task_id utility s = (s, []))
    ∧ (s.state = .LEADER →
      (s.task_claims.lookup task_id = none →
        handle_task_claim sender task_id utility s =
          ({ s with task_claims :=
               dictInsert task_id ⟨sender, utility⟩ s.task_claims },
           [Msg.taskConflict task_id sender]))
      ∧ (∀ current, s.task_claims.lookup task_id = some current →
          (utility > current.utility + 5.0 →
            handle_task_claim sender task_id utility s =
              ({ s with task_claims :=
                   dictInsert task_id ⟨sender, utility⟩ s.task_claims },
               [Msg.taskConflict task_id sender]))
          ∧ (¬ utility > current.utility + 5.0 → current.winner ≠ sender →
              handle_task_claim sender task_id utility s =
                (s, [Msg.taskConflict task_id current.winner]))
          ∧ (¬ utility > current.utility + 5.0 → current.winner = sender →
              handle_task_claim sender task_id utility s = (s, []))))
    ∧ (∀ e : ClaimEntry,
        (dictInsert task_id e s.task_claims).lookup task_id = some e) := by
  refine ⟨?_, ?_, fun e => lookup_dictInsert task_id e s.task_claims⟩
  · intro hne
    simp [handle_task_claim, hne]
  · intro hL
    refine ⟨?_, ?_⟩
    · intro hnone
      simp [handle_task_claim, hL, hnone]
    · intro current hcur
      refine ⟨?_, ?_, ?_⟩
      · intro hbeat
        simp [handle_task_claim, hL, hcur, hbeat]
      · intro hno hdiff
        simp [handle_task_claim, hL, hcur, hno, hdiff]
      · intro hno hsame
        simp [handle_task_claim, hL, hcur, hno, hsame]

/-- Witness for C4 at the scenario-5 inputs: a leader holding
101 -> (2, 50) keeps the entry and re-affirms winner 2 on a claim of 52
from node 3 (hysteresis not beaten), and replaces it on a claim of 60
from node 3. -/
theorem task_claim_arbitration_witness :
    sLarb.state = .LEADER ∧
    handle_task_claim 3 101 52 sLarb =
      (sLarb, [Msg.taskConflict 101 2]) ∧
    handle_task_claim 3 101 60 sLarb =
      ({ sLarb with task_claims := dictInsert 101 ⟨3, 60⟩ sLarb.task_claims },
       [Msg.taskConflict 101 3]) := by
  have hcur : sLarb.task_claims.lookup 101 = some ⟨2, (50 : ℝ)⟩ := rfl
  refine ⟨rfl, ?_, ?_⟩
  · have h := ((task_claim_arbitration 3 101 52 sLarb).2.1 rfl).2 _ hcur
    exact h.2.1 (by norm_num) (by decide)
  · have h := ((task_claim_arbitration 3 101 60 sLarb).2.1 rfl).2 _ hcur
    exact h.1 (by norm_num)

/-- C7: the computed utility is never negative, vanishes exactly when the
task carries a required capability missing from the node capability set,
and equals exactly 100 at distance zero when the capability requirement
is satisfied. -/
theorem utility_properties (s : SwarmAgent) (task : Task) :
    0 ≤ calculate_utility s task
    ∧ (calculate_utility s task = 0 ↔
        ∃ c, task.required_cap = some c ∧ c ∉ s.capabilities)
    ∧ (s.position = task.pos →
        (∀ c, task.required_cap = some c → c ∈ s.capabilities) →
        calculate_utility s task = 100) := by
  obtain ⟨st, tpos, rc⟩ := task
  have e1 : (1.0 : ℝ) = 1 := by norm_num
  have e0 : (0.0 : ℝ) = 0 := by norm_num
  have hd0 : (0 : ℝ) ≤ Real.sqrt
      ((s.position.1 - tpos.1) ^ 2 + (s.position.2 - tpos.2) ^ 2) :=
    Real.sqrt_nonneg _
  have hq : (0 : ℝ) < 100.0 / (1 + Real.sqrt
      ((s.position.1 - tpos.1) ^ 2 + (s.position.2 - tpos.2) ^ 2)) := by
    positivity
  cases rc with
  | none =>
      refine ⟨?_, ?_, ?_⟩
      · simp only [calculate_utility]
        rw [e1, mul_one]
        exact hq.le
      · simp only [calculate_utility]
        rw [e1, mul_one]
        constructor
        · intro h0
          exact absurd h0 hq.ne'
        · rintro ⟨c, hc, -⟩
          exact Option.noConfusion hc
      · intro hp _
        simp only [calculate_utility]
        have h1 : s.position.1 = tpos.1 := by rw [hp]
        have h2 : s.position.2 = tpos.2 := by rw [hp]
        rw [e1, mul_one, h1, h2, sub_self, sub_self]
        norm_num
  | some c =>
      by_cases hc : c ∈ s.capabilities
      · refine ⟨?_, ?_, ?_⟩
        · simp only [calculate_utility]
          rw [if_pos hc, e1, mul_one]
          exact hq.le
        · simp only [calculate_utility]
          rw [if_pos hc, e1, mul_one]
          constructor
          · intro h0
            exact absurd h0 hq.ne'
          · rintro ⟨c', hc', hmem⟩
            have hcc : c = c' := Option.some_inj.mp hc'
            exact absurd hc (by rw [hcc]; exact hmem)
        · intro hp _
          simp only [calculate_utility]
          have h1 : s.position.1 = tpos.1 := by rw [hp]
          have h2 : s.position.2 = tpos.2 := by rw [hp]
          rw [if_pos hc, e1, mul_one, h1, h2, sub_self, sub_self]
          norm_num
      · refine ⟨?_, ?_, ?_⟩
        · simp only [calculate_utility]
          rw [if_neg hc, e0, mul_zero]
        · simp only [calculate_utility]
          rw [if_neg hc, e0, mul_zero]
          constructor
          · intro _
            exact ⟨c, rfl, hc⟩
          · intro _
            rfl
        · intro _ hcap
          exact absurd (hcap c rfl) hc

/-- Shared computation: the scenario-4 utility is exactly 50. -/
theorem util_sCap_eq : calculate_utility sCap task101 = 50 := by
  have harg : ((sCap.position.1 - (task101.pos).1) ^ 2 +
      (sCap.position.2 - (task101.pos).2) ^ 2) = 1 := by
    show ((0 : ℝ) - 1) ^ 2 + ((0 : ℝ) - 0) ^ 2 = 1
    norm_num
  simp only [calculate_utility, harg, Real.sqrt_one]
  show 100.0 / (1.0 + 1) *
      (if "extinguisher" ∈ sCap.capabilities then (1.0 : ℝ) else 0.0) = 50
  rw [if_pos (by decide)]
  norm_num

/-- Witness for C7 at the scenario-4 inputs: node 1 at the origin with
the extinguisher capability scores task 101 at (1, 0) at exactly 50, a
value that is nonnegative and nonzero as the capability is present. -/
theorem utility_properties_witness :
    calculate_utility sCap task101 = 50
    ∧ 0 ≤ calculate_utility sCap task101
    ∧ calculate_utility sCap task101 ≠ 0 := by
  refine ⟨util_sCap_eq, (utility_properties sCap task101).1, ?_⟩
  intro h0
  have hiff := (utility_properties sCap task101).2.1
  rcases hiff.mp h0 with ⟨c, hc, hmem⟩
  have : c = "extinguisher" := by
    have : some c = some "extinguisher" := by exact hc ▸ rfl
    exact (Option.some_inj.mp this.symm).symm
  exact hmem (this ▸ (by decide : ("extinguisher" : String) ∈ sCap.capabilities))

/-- C8: the per-tick claim scan broadcasts TASK_CLAIM(task_id, utility)
for a task exactly when its local status is OPEN and its utility strictly
exceeds 20.0 (so not at exactly 20.0); in that case the local status
becomes TENTATIVE, otherwise the entry is untouched and silent; and the
scan is the pointwise application of this step over the task map with the
frames concatenated in iteration order. -/
theorem claim_scan (s : SwarmAgent) (tid : Nat) (t : Task) :
    (claim_step_msgs s (tid, t) =
        [Msg.taskClaim tid (calculate_utility s t)]
      ↔ t.status = .OPEN ∧ calculate_utility s t > 20.0)
    ∧ (t.status = .OPEN → calculate_utility s t > 20.0 →
        claim_step_task s (tid, t) = (tid, { t with status := .TENTATIVE }))
    ∧ (¬ (t.status = .OPEN ∧ calculate_utility s t > 20.0) →
        claim_step_task s (tid, t) = (tid, t)
        ∧ claim_step_msgs s (tid, t) = [])
    ∧ (calculate_utility s t = 20.0 → claim_step_msgs s (tid, t) = [])
    ∧ (process_tasks s).1.tasks = s.tasks.map (claim_step_task s)
    ∧ (process_tasks s).2 = (s.tasks.map (claim_step_msgs s)).flatten := by
  refine ⟨?_, ?_, ?_, ?_, rfl, rfl⟩
  · constructor
    · intro hmsg
      by_contra hcond
      rw [claim_step_msgs, if_neg hcond] at hmsg
      exact List.noConfusion hmsg
    · intro hcond
      rw [claim_step_msgs, if_pos hcond]
  · intro hopen hU
    rw [claim_step_task, if_pos ⟨hopen, hU⟩]
  · intro hcond
    exact ⟨by rw [claim_step_task, if_neg hcond],
           by rw [claim_step_msgs, if_neg hcond]⟩
  · intro h20
    rw [claim_step_msgs, if_neg]
    rintro ⟨-, hgt⟩
    rw [h20] at hgt
    exact absurd hgt (by norm_num)

/-- Witness for C8 at the scenario-4 inputs: utility 50 exceeds the
threshold, so task 101 goes TENTATIVE and one TASK_CLAIM is sent. -/
theorem claim_scan_witness :
    task101.status = .OPEN
    ∧ calculate_utility sCap task101 > 20.0
    ∧ (process_tasks sCap).1.tasks =
        [(101, { task101 with status := .TENTATIVE })]
    ∧ (process_tasks sCap).2 =
        [Msg.taskClaim 101 (calculate_utility sCap task101)] := by
  have h := claim_scan sCap 101 task101
  have hU : calculate_utility sCap task101 > 20.0 := by
    rw [util_sCap_eq]
    norm_num
  refine ⟨rfl, hU, ?_, ?_⟩
  · rw [h.2.2.2.2.1]
    have hstep := h.2.1 rfl hU
    rw [show sCap.tasks = [(101, task101)] from rfl]
    rw [List.map_cons, List.map_nil, hstep]
  · rw [h.2.2.2.2.2]
    have hmsg := h.1.mpr ⟨rfl, hU⟩
    rw [show sCap.tasks = [(101, task101)] from rfl]
    rw [List.map_cons, List.map_nil, hmsg]
    rfl

/-- C1: the invariant that role LEADER implies leader_id equals the own
id is preserved by the election timeout check and by the HEARTBEAT,
ELECTION_ACCLAIM and COORDINATOR handlers, for any sender, payload length
and decoded payload. -/
theorem leader_self_id_invariant
    (now delaySample : ℝ) (sender payloadLen : Nat) (dec : ℝ × ℝ)
    (s : SwarmAgent) (h : leader_inv s) :
    leader_inv (check_election_timeout now delaySample s).1
    ∧ leader_inv (handle_heartbeat now sender payloadLen dec s).1
    ∧ leader_inv (handle_election_acclaim now sender s).1
    ∧ leader_inv (handle_coordinator now sender s).1 := by
  unfold leader_inv at h ⊢
  refine ⟨?_, ?_, ?_, ?_⟩
  · simp only [check_election_timeout]
    split_ifs <;> simp_all
  · by_cases h1 : s.state = .LEADER ∧ sender < s.agent_id
    · simp only [handle_heartbeat, if_pos h1]
      exact h
    · by_cases h2 : s.state = .LEADER ∧ sender > s.agent_id
      · intro hL
        exfalso
        simp only [handle_heartbeat, if_neg h1, if_pos h2] at hL
        split_ifs at hL
      · intro hL
        have hstate : s.state = .LEADER := by
          by_contra hns
          simp only [handle_heartbeat, if_neg h1, if_neg h2] at hL
          split_ifs at hL <;> simp_all
        have heq : sender = s.agent_id := by
          have hns : ¬ sender < s.agent_id := fun hlt => h1 ⟨hstate, hlt⟩
          have hng : ¬ sender > s.agent_id := fun hgt => h2 ⟨hstate, hgt⟩
          omega
        clear hL
        simp only [handle_heartbeat, if_neg h1, if_neg h2]
        split_ifs <;> simp_all
  · simp only [handle_election_acclaim]
    split_ifs <;> simp_all
  · simp only [handle_coordinator]
    simp_all

/-- Witness for C1: the invariant holds for the freshly initialized
follower node and is preserved across all four operations there. -/
theorem leader_self_id_invariant_witness :
    leader_inv s0
    ∧ leader_inv (check_election_timeout 0 0 s0).1
    ∧ leader_inv (handle_heartbeat 0 3 0 (0, 0) s0).1
    ∧ leader_inv (handle_election_acclaim 0 3 s0).1
    ∧ leader_inv (handle_coordinator 0 3 s0).1 := by
  have hinv : leader_inv s0 := by
    intro hL
    exact absurd hL (by decide)
  exact ⟨hinv, leader_self_id_invariant 0 0 3 0 (0, 0) s0 hinv⟩

/-- C5 counterexample: leader node 2 at tick 1 receives an
ELECTION_ACCLAIM from the lower node 1; the role stays LEADER but no
frame at all is emitted, because _send_heartbeat only sends on ticks
divisible by 10 — contradicting the claim that a HEARTBEAT is emitted
for every tick value. -/
theorem acclaim_suppression_counterexample :
    sL2.state = .LEADER ∧ sL2.agent_id = 2 ∧ sL2.tick = 1 ∧
    (handle_election_acclaim 0 1 sL2).1 = sL2 ∧
    (handle_election_acclaim 0 1 sL2).2 = [] := by
  refine ⟨rfl, rfl, rfl, ?_, ?_⟩ <;>
    simp [handle_election_acclaim, send_heartbeat, sL2, SwarmAgent.init]

/-- C5 amended: a leader that receives an ELECTION_ACCLAIM from a
strictly lower sender keeps its full state unchanged and emits a
HEARTBEAT carrying its own position exactly when its tick counter is a
multiple of 10 (the 1 Hz subsampling inside _send_heartbeat); on other
ticks it emits nothing. -/
theorem acclaim_suppression (now : ℝ) (sender : Nat) (s : SwarmAgent)
    (hL : s.state = .LEADER) (hlt : sender < s.agent_id) :
    handle_election_acclaim now sender s =
      (s, if s.tick % 10 = 0
          then [Msg.heartbeat s.position.1 s.position.2] else []) := by
  have hng : ¬ sender > s.agent_id := by omega
  simp only [handle_election_acclaim, if_neg hng]
  rw [if_pos ⟨hlt, Or.inl hL⟩]
  rw [if_neg (by rw [hL]; exact fun hc => AgentState.noConfusion hc)]
  rfl

/-- Witness for C5 amended: leader node 2 at tick 10 does emit the
HEARTBEAT with its own position when bullying back node 1. -/
theorem acclaim_suppression_witness :
    sL2t10.state = .LEADER ∧ (1 : Nat) < sL2t10.agent_id ∧
    handle_election_acclaim 0 1 sL2t10 =
      (sL2t10, [Msg.heartbeat sL2t10.position.1 sL2t10.position.2]) := by
  refine ⟨rfl, by decide, ?_⟩
  rw [acclaim_suppression 0 1 sL2t10 rfl (by decide)]
  rw [if_pos (by decide)]

/-- C6 counterexample: a 6-byte TASK_CLAIM frame (type 0x04 from sender
7 with an empty payload) is not silently dropped: the struct.unpack in
_handle_task_claim raises, and the error propagates to the caller of
on_message_received. -/
theorem codec_error_counterexample :
    on_message_received 0 [4, 7, 0, 0, 0, 0] s0 = .error () := rfl

/-- C6 amended: frames shorter than 6 bytes and frames with unknown type
codes are silently dropped, leaving the state unchanged, emitting
nothing and raising nothing; but a TASK_CLAIM frame whose payload is not
exactly 8 bytes, and a TASK_CONFLICT frame whose payload is not exactly
5 bytes, raise a decode error to the caller instead of being dropped. -/
theorem codec_guards (now : ℝ) (data : List Nat) (s : SwarmAgent) :
    (data.length < 6 → on_message_received now data s = .ok (s, []))
    ∧ (6 ≤ data.length →
        (data.headI ∉ ([1, 2, 3, 4, 5] : List Nat) →
          on_message_received now data s = .ok (s, []))
        ∧ (data.headI = TASK_CLAIM_CODE → (data.drop 6).length ≠ 8 →
            on_message_received now data s = .error ())
        ∧ (data.headI = TASK_CONFLICT_CODE → (data.drop 6).length ≠ 5 →
            on_message_received now data s = .error ())) := by
  refine ⟨?_, fun h6 => ⟨?_, ?_, ?_⟩⟩
  · intro hlen
    simp [on_message_received, hlen]
  · intro hunk
    simp only [List.mem_cons, List.not_mem_nil, or_false, not_or] at hunk
    obtain ⟨hu1, hu2, hu3, hu4, hu5⟩ := hunk
    simp only [on_message_received]
    rw [if_neg (show ¬ data.length < 6 by omega)]
    rw [if_neg (show ¬ data.headI = HEARTBEAT_CODE from hu1),
        if_neg (show ¬ data.headI = ELECTION_ACCLAIM_CODE from hu2),
        if_neg (show ¬ data.headI = COORDINATOR_CODE from hu3),
        if_neg (show ¬ data.headI = TASK_CLAIM_CODE from hu4),
        if_neg (show ¬ data.headI = TASK_CONFLICT_CODE from hu5)]
  · intro hT h8
    simp only [on_message_received]
    rw [if_neg (show ¬ data.length < 6 by omega), hT]
    norm_num [HEARTBEAT_CODE, ELECTION_ACCLAIM_CODE, COORDINATOR_CODE,
      TASK_CLAIM_CODE, TASK_CONFLICT_CODE]
    rw [List.length_drop] at h8
    exact fun hx => absurd hx h8
  · intro hT h5
    simp only [on_message_received]
    rw [if_neg (show ¬ data.length < 6 by omega), hT]
    norm_num [HEARTBEAT_CODE, ELECTION_ACCLAIM_CODE, COORDINATOR_CODE,
      TASK_CLAIM_CODE, TASK_CONFLICT_CODE]
    rw [List.length_drop] at h5
    exact fun hx => absurd hx h5

/-- Witness for C6 amended: a 2-byte frame is dropped without effect,
and a 7-byte TASK_CONFLICT frame with a 1-byte payload raises. -/
theorem codec_guards_witness :
    ([2, 9] : List Nat).length < 6
    ∧ on_message_received 0 [2, 9] s0 = .ok (s0, [])
    ∧ ([5, 1, 0, 0, 0, 0, 9] : List Nat).headI = TASK_CONFLICT_CODE
    ∧ on_message_received 0 [5, 1, 0, 0, 0, 0, 9] s0 = .error () := by
  refine ⟨by decide, (codec_guards 0 [2, 9] s0).1 (by decide), by decide, ?_⟩
  exact ((codec_guards 0 [5, 1, 0, 0, 0, 0, 9] s0).2 (by decide)).2.2
    (by decide) (by decide)

/-- C10: an inbound HEARTBEAT frame of at least 6 bytes whose payload is
not exactly 8 bytes, received outside the leader-suppression branch,
still credits liveness: leader_id becomes the sender, last_heartbeat is
refreshed to now, ELECTION_WAIT drops back to FOLLOWER, and leader_pos
keeps its previous value since nothing was decoded; no frame is emitted
and no error is raised. -/
theorem heartbeat_short_payload (now : ℝ) (data : List Nat)
    (s : SwarmAgent) (h6 : 6 ≤ data.length)
    (hhb : data.headI = HEARTBEAT_CODE) (hlen : data.length ≠ 14)
    (hns : ¬ (s.state = .LEADER ∧ data.tail.headI < s.agent_id)) :
    ∃ q : SwarmAgent, on_message_received now data s = .ok (q, [])
      ∧ q.leader_id = some data.tail.headI
      ∧ q.last_heartbeat_time = now
      ∧ q.leader_pos = s.leader_pos
      ∧ (s.state = .ELECTION_WAIT → q.state = .FOLLOWER) := by
  have hp8 : (data.drop 6).length ≠ 8 := by
    rw [List.length_drop]
    omega
  simp only [on_message_received]
  rw [if_neg (show ¬ data.length < 6 by omega), hhb, if_pos rfl]
  simp only [handle_heartbeat, if_neg hns]
  split_ifs <;> refine ⟨_, rfl, rfl, rfl, ?_, ?_⟩ <;> simp_all

/-- Witness for C10: a bare 6-byte HEARTBEAT from node 3 delivered to
follower node 1 at t=7 sets leader_id = 3 and refreshes the heartbeat
clock while leader_pos stays absent. -/
theorem heartbeat_short_payload_witness :
    ∃ q : SwarmAgent,
      on_message_received 7 [1, 3, 0, 0, 0, 0] s0 = .ok (q, [])
      ∧ q.leader_id = some 3
      ∧ q.last_heartbeat_time = 7
      ∧ q.leader_pos = none := by
  obtain ⟨q, h1, h2, h3, h4, -⟩ :=
    heartbeat_short_payload 7 [1, 3, 0, 0, 0, 0] s0 (by decide) (by decide)
      (by decide) (by decide)
  exact ⟨q, h1, h2, h3, h4.trans rfl⟩

theorem vmag_scale (f : ℝ × ℝ) (c : ℝ) (hc : 0 ≤ c) :
    vmag (f.1 * c, f.2 * c) = c * vmag f := by
  unfold vmag
  have h : (f.1 * c) ^ 2 + (f.2 * c) ^ 2 = c ^ 2 * (f.1 ^ 2 + f.2 ^ 2) := by
    ring
  rw [h, Real.sqrt_mul (sq_nonneg c), Real.sqrt_sq hc]

/-- C9: whenever the physics step has a target (externally set or derived
from the formation slot) and max_speed is the constant 5, the stored
velocity magnitude never exceeds 5: if the summed potential-field force
exceeds 5 in magnitude it is scaled to exactly magnitude 5, otherwise it
becomes the velocity unchanged; and the position advances by velocity
times dt. -/
theorem motion_speed_limit (dt : ℝ) (s : SwarmAgent) (tgt : ℝ × ℝ)
    (htgt : formation_target s = some tgt) (hmax : s.max_speed = 5) :
    vmag (update_physics dt s).velocity ≤ 5
    ∧ (vmag (total_force s tgt) > 5 →
        vmag (update_physics dt s).velocity = 5)
    ∧ (¬ vmag (total_force s tgt) > 5 →
        (update_physics dt s).velocity = total_force s tgt)
    ∧ (update_physics dt s).position =
        (s.position.1 + (update_physics dt s).velocity.1 * dt,
         s.position.2 + (update_physics dt s).velocity.2 * dt) := by
  have hkey : (update_physics dt s).velocity =
      if vmag (total_force s tgt) > s.max_speed
      then ((total_force s tgt).1 * (s.max_speed / vmag (total_force s tgt)),
            (total_force s tgt).2 * (s.max_speed / vmag (total_force s tgt)))
      else total_force s tgt := by
    simp only [update_physics]
    rw [htgt]
    rfl
  have hpos : (update_physics dt s).position =
      (s.position.1 + (update_physics dt s).velocity.1 * dt,
       s.position.2 + (update_physics dt s).velocity.2 * dt) := by
    simp only [update_physics]
    rw [htgt]
  rw [hmax] at hkey
  by_cases hgt : vmag (total_force s tgt) > 5
  · have hne : vmag (total_force s tgt) ≠ 0 :=
      ((show (0 : ℝ) < 5 by norm_num).trans hgt).ne'
    have hc : 0 ≤ 5 / vmag (total_force s tgt) := by
      have := ((show (0 : ℝ) < 5 by norm_num).trans hgt).le
      positivity
    have hv5 : vmag (update_physics dt s).velocity = 5 := by
      rw [hkey, if_pos hgt, vmag_scale _ _ hc, div_mul_cancel₀ _ hne]
    exact ⟨le_of_eq hv5, fun _ => hv5, fun hn => absurd hgt hn, hpos⟩
  · have hveq : (update_physics dt s).velocity = total_force s tgt := by
      rw [hkey, if_neg hgt]
    refine ⟨?_, fun hg => absurd hg hgt, fun _ => hveq, hpos⟩
    rw [hveq]
    exact not_lt.mp hgt

/-- Witness for C9: node 1 standing on its own target with empty sensor
lists commands zero force, so the stored velocity is (0, 0), within the
speed limit. -/
theorem motion_speed_limit_witness :
    formation_target sTgt = some (0, 0)
    ∧ sTgt.max_speed = 5
    ∧ vmag (update_physics 0.1 sTgt).velocity ≤ 5
    ∧ (update_physics 0.1 sTgt).velocity = (0, 0) := by
  have hft : formation_target sTgt = some (0, 0) := rfl
  have hatt : attractive_force ((0 : ℝ), (0 : ℝ)) ((0 : ℝ), (0 : ℝ))
      = (0, 0) := by
    norm_num [attractive_force, vmag, Real.sqrt_zero]
  have hF : total_force sTgt (0, 0) = (0, 0) := by
    simp only [total_force, vsum, sTgt, s0, SwarmAgent.init, List.map_nil,
      List.foldl_nil]
    rw [hatt]
    norm_num
  have hnv : ¬ vmag (total_force sTgt (0, 0)) > 5 := by
    rw [hF]
    norm_num [vmag, Real.sqrt_zero]
  have h := motion_speed_limit 0.1 sTgt (0, 0) hft rfl
  exact ⟨hft, rfl, h.1, (h.2.2.1 hnv).trans hF⟩

end Swarm
